import Mathlib

/-!
Verification development for the `nl-mesh-platform` repository.

The definitions below are a shallow embedding of the Python sources:
`nl_mesh_inspect/nlp_engine.py` (entity extraction, numeric-constraint
extraction, intent and query-type classification, query parsing) and
`nl_mesh_inspect/langgraph_agent.py` (the deterministic analysis
orchestrator and its model registry).

Modelling conventions:
* Python floats are modelled by `Rat` (all numerals appearing in the code
  are exact decimals).
* A Python exception is modelled by `Option`/`Except`: `none`/`.error`
  at the raise site, caught where the source catches it.
* `uuid.uuid4()` is modelled by a monotone fresh counter carried in the
  agent state: each draw is distinct from every previously issued value.
* Strings are handled as `List Char`; Python `str.lower` is modelled for
  ASCII letters (the keyword tables and texts involved contain only ASCII
  letters and CJK characters, on which `lower` acts exactly this way).
-/

namespace NLMesh

/-! ### Enumerations (`models.py`, `nlp_engine.py`) -/

/-- `AnalysisIntent` from `models.py` (a `str` enum with exactly these three
members, in this declaration order). -/
inductive AnalysisIntent where
  | QUERY
  | OPERATION
  | MODIFICATION
deriving DecidableEq

/-- `GeometricEntity` from `models.py`. -/
inductive GeometricEntity where
  | VERTEX
  | EDGE
  | FACE
  | HOLE
  | CYLINDER
  | PLANE
  | SPHERE
deriving DecidableEq

/-- `QueryType` from `nlp_engine.py`, in declaration order. -/
inductive QueryType where
  | MEASUREMENT
  | FEATURE_DETECTION
  | TOPOLOGY_CHECK
  | SELECTION
  | MODIFICATION
deriving DecidableEq

/-- The `str` value of each `QueryType` member. -/
def QueryType.str : QueryType → String
  | .MEASUREMENT => "measurement"
  | .FEATURE_DETECTION => "feature_detection"
  | .TOPOLOGY_CHECK => "topology_check"
  | .SELECTION => "selection"
  | .MODIFICATION => "modification"

/-- The `str` value of each `GeometricEntity` member. -/
def GeometricEntity.str : GeometricEntity → String
  | .VERTEX => "vertex"
  | .EDGE => "edge"
  | .FACE => "face"
  | .HOLE => "hole"
  | .CYLINDER => "cylinder"
  | .PLANE => "plane"
  | .SPHERE => "sphere"

/-! ### Character and substring utilities -/

/-- Python `str.lower` on one character, for the ASCII letters (identity on
CJK characters, which is what `lower` does there). -/
def lowerChar (c : Char) : Char :=
  if 'A' ≤ c && c ≤ 'Z' then Char.ofNat (c.toNat + 32) else c

/-- The lowered character list of a string. -/
def lowerStr (s : String) : List Char := s.toList.map lowerChar

/-- Python substring containment (`needle in hay`). -/
def containsSub : List Char → List Char → Bool
  | [], needle => needle.isEmpty
  | c :: rest, needle => needle.isPrefixOf (c :: rest) || containsSub rest needle

/-- Python `hay.index(needle)`: offset of the first occurrence. -/
def indexOfSub : List Char → List Char → Option Nat
  | [], needle => if needle.isEmpty then some 0 else none
  | c :: rest, needle =>
    if needle.isPrefixOf (c :: rest) then some 0
    else (indexOfSub rest needle).map (· + 1)

/-- Substring containment on `String`s (used on the regex source strings by
`QueryParser._parse_constraints`). -/
def strContains (s sub : String) : Bool := containsSub s.toList sub.toList

/-- Characters matched by the regex class `\s` (ASCII whitespace; the texts
involved contain no other whitespace). -/
def isSpaceChar (c : Char) : Bool := c = ' ' || c = '\t' || c = '\n' || c = '\r'

/-- Characters of the regex class `[\d.]`. -/
def isNumChar (c : Char) : Bool := c.isDigit || c = '.'

def dropSpaces (cs : List Char) : List Char := cs.dropWhile isSpaceChar

/-- If `w` is a prefix of `cs`, the remaining suffix. -/
def stripPrefixChars : List Char → List Char → Option (List Char)
  | [], cs => some cs
  | _, [] => none
  | a :: w, c :: cs => if a = c then stripPrefixChars w cs else none

/-- First alternative of a regex alternation of literals that matches at the
front of `cs` (alternatives are tried in source order). -/
def matchAlt : List String → List Char → Option (String × List Char)
  | [], _ => none
  | a :: rest, cs =>
    match stripPrefixChars a.toList cs with
    | some r => some (a, r)
    | none => matchAlt rest cs

/-! ### Numeric-constraint regexes (`EntityExtractor.extract_numerical_constraints`)

The three pattern families are alternations of literals around `\s*` and
`[\d.]+`; each is embedded as a dedicated matcher with exactly the regex's
greedy/backtracking behaviour (the only backtracking those patterns can do
is trying the alternatives of the leading comparison word in order, since
no unit alternative begins with a digit, a dot or whitespace). -/

/-- The unit alternation `(mm|厘米|cm|米|m|英寸|inch|in)` in source order. -/
def unitAlts : List String := ["mm", "厘米", "cm", "米", "m", "英寸", "inch", "in"]

/-- The comparison-word alternation in source order. -/
def compAlts : List String :=
  ["大于", "大于等于", "小于", "小于等于", "等于", "不小于", "不大于"]

/-- Matches `\s*([\d.]+)\s*(mm|厘米|cm|米|m|英寸|inch|in)?` at the front of
`cs`, returning the number capture, the optional unit capture, and the rest
of the text after the whole match. -/
def numUnitTail (cs : List Char) : Option (String × Option String × List Char) :=
  let cs1 := dropSpaces cs
  let num := cs1.takeWhile isNumChar
  if num.isEmpty then none
  else
    let cs2 := dropSpaces (cs1.drop num.length)
    match matchAlt unitAlts cs2 with
    | some (u, r) => some (num.asString, some u, r)
    | none => some (num.asString, none, cs2)

/-- One attempt of the comparison pattern at the front of the text: each
comparison word is tried in alternation order, backtracking to the next
word when the numeric tail fails (exactly what the regex engine does). -/
def matchCompAux : List String → List Char → Option ((String × String × Option String) × List Char)
  | [], _ => none
  | w :: rest, cs =>
    match stripPrefixChars w.toList cs with
    | some r =>
      match numUnitTail r with
      | some (num, u, r2) => some ((w, num, u), r2)
      | none => matchCompAux rest cs
    | none => matchCompAux rest cs

/-- The pattern `(大于|大于等于|小于|小于等于|等于|不小于|不大于)\s*([\d.]+)\s*(unit)?`
tried at the front of the text. -/
def matchComparison (cs : List Char) : Option ((String × String × Option String) × List Char) :=
  matchCompAux compAlts cs

/-- The range pattern `([\d.]+)\s*到\s*([\d.]+)\s*(unit)?` tried at the front
of the text. -/
def matchRange (cs : List Char) : Option ((String × String × Option String) × List Char) :=
  let num1 := cs.takeWhile isNumChar
  if num1.isEmpty then none
  else
    let cs1 := dropSpaces (cs.drop num1.length)
    match stripPrefixChars "到".toList cs1 with
    | none => none
    | some cs2 =>
      match numUnitTail cs2 with
      | none => none
      | some (num2, u, r) => some ((num1.asString, num2, u), r)

/-- The bare pattern `([\d.]+)\s*(mm|厘米|cm|米|m|英寸|inch|in)` (unit required)
tried at the front of the text. -/
def matchBare (cs : List Char) : Option ((String × String) × List Char) :=
  let num := cs.takeWhile isNumChar
  if num.isEmpty then none
  else
    let cs1 := dropSpaces (cs.drop num.length)
    match matchAlt unitAlts cs1 with
    | none => none
    | some (u, r) => some ((num.asString, u), r)

/-- Fuelled scan; every matcher above consumes at least one character, so
fuel equal to the text length is always enough. -/
def scanAllAux {α : Type} (m : List Char → Option (α × List Char)) : Nat → List Char → List α
  | 0, _ => []
  | _ + 1, [] => []
  | fuel + 1, c :: cs =>
    match m (c :: cs) with
    | some (g, rest) => g :: scanAllAux m fuel rest
    | none => scanAllAux m fuel cs

/-- `re.finditer`: leftmost, non-overlapping matches, scanning resumes after
each match. -/
def scanAll {α : Type} (m : List Char → Option (α × List Char)) (cs : List Char) : List α :=
  scanAllAux m cs.length cs

/-- Regex source string of the comparison pattern, as it appears in
`extract_numerical_constraints` (the constraint dict carries this string and
`_parse_constraints` dispatches on it by substring tests). -/
def patComparison : String :=
  "(大于|大于等于|小于|小于等于|等于|不小于|不大于)\\s*([\\d.]+)\\s*(mm|厘米|cm|米|m|英寸|inch|in)?"

/-- Regex source string of the range pattern. -/
def patRange : String := "([\\d.]+)\\s*到\\s*([\\d.]+)\\s*(mm|厘米|cm|米|m|英寸|inch|in)?"

/-- Regex source string of the bare number+unit pattern. -/
def patBare : String := "([\\d.]+)\\s*(mm|厘米|cm|米|m|英寸|inch|in)"

/-- One entry of the constraint list built by
`extract_numerical_constraints`: the pattern's source string and
`match.groups()` (unmatched optional groups are `none`). The dict also
carries the matched text under `"match"`, which `_parse_constraints` never
reads; it is omitted here. -/
structure RawConstraint where
  pattern : String
  groups : List (Option String)
deriving DecidableEq

/-- `EntityExtractor.extract_numerical_constraints`: all matches of the three
pattern families, in pattern order then text order; entries are kept only
when the pattern has at least two groups (always true for these three). -/
def extract_numerical_constraints (text : String) : List RawConstraint :=
  let cs := text.toList
  let l1 := (scanAll matchComparison cs).map fun g =>
    RawConstraint.mk patComparison [some g.1, some g.2.1, g.2.2]
  let l2 := (scanAll matchRange cs).map fun g =>
    RawConstraint.mk patRange [some g.1, some g.2.1, g.2.2]
  let l3 := (scanAll matchBare cs).map fun g =>
    RawConstraint.mk patBare [some g.1, some g.2]
  (l1 ++ l2 ++ l3).filter fun c => c.groups.length ≥ 2

/-! ### Unit normalization and float conversion -/

/-- `EntityExtractor.unit_conversion`. -/
def unit_conversion : List (String × Rat) :=
  [("mm", 1), ("厘米", 10), ("cm", 10), ("米", 1000), ("m", 1000),
   ("英寸", 254/10), ("inch", 254/10), ("in", 254/10)]

/-- `EntityExtractor.normalize_units`. At runtime the `unit` argument can be
`None` (an absent optional capture group), which is not a key of the table,
so the value is returned unchanged. -/
def normalize_units (value : Rat) (unit : Option String) : Rat :=
  match unit with
  | none => value
  | some u =>
    match unit_conversion.find? (fun p => p.1 == u) with
    | some p => value * p.2
    | none => value

def digitsToNat (ds : List Char) : Nat := ds.foldl (fun a c => a * 10 + (c.toNat - 48)) 0

/-- Python `float(...)` on a capture of the regex class `[\d.]+`: defined
(with its decimal value) when the string has at least one digit and at most
one dot, a `ValueError` (`none`) otherwise. -/
def pyFloat? (s : String) : Option Rat :=
  let cs := s.toList
  if cs.all isNumChar && cs.any Char.isDigit && cs.count '.' ≤ 1 then
    let ip := cs.takeWhile (· != '.')
    let fp := (cs.dropWhile (· != '.')).drop 1
    some ((digitsToNat ip : Rat) + (digitsToNat fp : Rat) / ((10 : Rat) ^ fp.length))
  else none

/-! ### Entity extraction (`EntityExtractor.extract_entities`) -/

/-- One extracted entity: type, the keyword that hit, and the offset of the
keyword's first occurrence in the lowered text. -/
structure Entity where
  type : GeometricEntity
  keyword : String
  position : Nat
deriving DecidableEq

/-- `EntityExtractor.entity_keywords`, in source order. -/
def entity_keywords : List (GeometricEntity × List String) :=
  [(.VERTEX, ["顶点", "点", "vertex", "point"]),
   (.EDGE, ["边", "边缘", "edge", "边界"]),
   (.FACE, ["面", "表面", "face", "surface"]),
   (.HOLE, ["孔", "洞", "hole", "opening"]),
   (.CYLINDER, ["圆柱", "柱面", "cylinder", "cylindrical"]),
   (.PLANE, ["平面", "plate", "plane", "flat"]),
   (.SPHERE, ["球体", "球面", "sphere", "spherical"])]

def insertByPosition (x : Entity) : List Entity → List Entity
  | [] => [x]
  | y :: ys => if y.position ≤ x.position then y :: insertByPosition x ys else x :: y :: ys

/-- Stable ascending sort by `position` (Python `sorted` with that key). -/
def sortByPosition (l : List Entity) : List Entity :=
  l.foldl (fun acc x => insertByPosition x acc) []

/-- `EntityExtractor.extract_entities`: for each entity type and keyword, a
case-insensitive substring hit emits one entity at the keyword's first
offset; the hits are then sorted ascending by offset. -/
def extract_entities (text : String) : List Entity :=
  let lt := lowerStr text
  let hits := entity_keywords.foldl (fun acc p =>
    acc ++ p.2.filterMap (fun kw =>
      (indexOfSub lt (lowerStr kw)).map (fun i => Entity.mk p.1 kw i))) []
  sortByPosition hits

/-! ### Intent and query-type classification (`IntentClassifier`) -/

/-- `IntentClassifier.intent_patterns`: each regex is an alternation of
literal keywords, listed here in source order. -/
def intent_patterns : AnalysisIntent → List (List String)
  | .QUERY =>
    [["查询", "查看", "显示", "展示", "什么是", "有多少", "多大", "多长", "多宽", "多高", "体积", "面积", "周长"],
     ["measure", "show", "display", "what is", "how many", "how big", "how long", "how wide", "how tall", "volume", "area", "perimeter"],
     ["检测", "检查", "分析", "analyze", "check", "detect", "inspect"]]
  | .OPERATION =>
    [["选择", "高亮", "标记", "highlight", "select", "mark", "identify"],
     ["旋转", "移动", "缩放", "rotate", "move", "scale", "translate"],
     ["比较", "对比", "compare", "contrast"]]
  | .MODIFICATION =>
    [["修改", "编辑", "改变", "调整", "modify", "edit", "change", "adjust", "alter"],
     ["添加", "删除", "创建", "add", "remove", "delete", "create"],
     ["优化", "改进", "improve", "optimize", "enhance"]]

/-- `re.search` of one alternation-of-literals pattern against the lowered
text: some alternative occurs as a substring. -/
def patternMatches (lt : List Char) (alts : List String) : Bool :=
  alts.any (fun k => containsSub lt k.toList)

/-- The intent's score: how many of its patterns match the text. -/
def intentScore (text : String) (i : AnalysisIntent) : Nat :=
  ((intent_patterns i).filter (patternMatches (lowerStr text))).length

/-- Python `max(items, key=score)`: the first item, in iteration order, whose
score no later item strictly exceeds. -/
def pickFirstMax {α : Type} (best : α) (bestScore : Nat) : List (α × Nat) → α
  | [] => best
  | p :: rest =>
    if p.2 > bestScore then pickFirstMax p.1 p.2 rest else pickFirstMax best bestScore rest

/-- `IntentClassifier.classify_intent`: highest score wins, ties resolved to
the earlier member in enum declaration order (`dict` iteration order of the
score table). -/
def classify_intent (text : String) : AnalysisIntent :=
  pickFirstMax .QUERY (intentScore text .QUERY)
    [(.OPERATION, intentScore text .OPERATION),
     (.MODIFICATION, intentScore text .MODIFICATION)]

/-- `IntentClassifier.query_type_patterns`: the table has no entry for
`MODIFICATION`, so that type's pattern list is empty. -/
def query_type_patterns : QueryType → List (List String)
  | .MEASUREMENT =>
    [["距离", "长度", "宽度", "高度", "直径", "半径", "角度", "measure", "distance", "length", "width", "height", "diameter", "radius", "angle"],
     ["体积", "面积", "表面积", "周长", "volume", "area", "surface area", "perimeter"]]
  | .FEATURE_DETECTION =>
    [["特征", "孔洞", "圆柱", "平面", "球体", "feature", "hole", "cylinder", "plane", "sphere"],
     ["检测", "识别", "detect", "identify", "find", "locate"]]
  | .TOPOLOGY_CHECK =>
    [["拓扑", "流形", "水密", "自相交", "topology", "manifold", "watertight", "self-intersection"],
     ["检查", "验证", "check", "verify", "validate"]]
  | .SELECTION =>
    [["选择", "高亮", "标记", "select", "highlight", "mark"],
     ["所有", "全部", "all", "every"]]
  | .MODIFICATION => []

/-- The query type's score. -/
def queryTypeScore (text : String) (q : QueryType) : Nat :=
  ((query_type_patterns q).filter (patternMatches (lowerStr text))).length

/-- `IntentClassifier.classify_query_type`: highest score wins with the same
first-of-equals rule; a best score of zero falls back to `MEASUREMENT`
explicitly. -/
def classify_query_type (text : String) : QueryType :=
  let best := pickFirstMax .MEASUREMENT (queryTypeScore text .MEASUREMENT)
    [(.FEATURE_DETECTION, queryTypeScore text .FEATURE_DETECTION),
     (.TOPOLOGY_CHECK, queryTypeScore text .TOPOLOGY_CHECK),
     (.SELECTION, queryTypeScore text .SELECTION),
     (.MODIFICATION, queryTypeScore text .MODIFICATION)]
  if queryTypeScore text best > 0 then best else .MEASUREMENT

/-! ### Constraint resolution and query parsing (`QueryParser`) -/

/-- The `parameters` mapping built by `_parse_constraints`: only these three
keys are ever written. -/
structure Params where
  min_value : Option Rat := none
  max_value : Option Rat := none
  target_value : Option Rat := none
deriving DecidableEq

/-- Python `len(parameters)`: how many keys are present. -/
def Params.size (p : Params) : Nat :=
  (if p.min_value.isSome then 1 else 0) +
  (if p.max_value.isSome then 1 else 0) +
  (if p.target_value.isSome then 1 else 0)

/-- One iteration of `QueryParser._parse_constraints`. The branch conditions
test the *pattern source string* for substrings (`"大于" in pattern`, etc.),
not the matched text; `none` models an exception escaping the loop
(`float` ValueError or a missing group). -/
def constraintStep (p : Params) (c : RawConstraint) : Option Params :=
  if strContains c.pattern "大于" || strContains c.pattern ">" then do
    let g1 ← (c.groups.get? 1).join
    let v ← pyFloat? g1
    let unit := if c.groups.length > 2 then (c.groups.get? 2).join else some "mm"
    pure { p with min_value := some (normalize_units v unit) }
  else if strContains c.pattern "小于" || strContains c.pattern "<" then do
    let g1 ← (c.groups.get? 1).join
    let v ← pyFloat? g1
    let unit := if c.groups.length > 2 then (c.groups.get? 2).join else some "mm"
    pure { p with max_value := some (normalize_units v unit) }
  else if strContains c.pattern "到" || strContains c.pattern "-" then do
    let g0 ← (c.groups.get? 0).join
    let g1 ← (c.groups.get? 1).join
    let vmin ← pyFloat? g0
    let vmax ← pyFloat? g1
    let unit := if c.groups.length > 2 then (c.groups.get? 2).join else some "mm"
    pure { p with min_value := some (normalize_units vmin unit),
                  max_value := some (normalize_units vmax unit) }
  else if c.groups.length ≥ 2 then do
    let g0 ← (c.groups.get? 0).join
    let v ← pyFloat? g0
    let unit := (c.groups.get? 1).join
    pure { p with target_value := some (normalize_units v unit) }
  else pure p

/-- `QueryParser._parse_constraints`: the constraint list folded into the
parameters mapping, later writes overwriting earlier ones. -/
def parse_constraints (cs : List RawConstraint) : Option Params :=
  cs.foldlM constraintStep {}

/-- The structured result of `QueryParser.parse_query`. -/
structure ParsedQuery where
  original_text : String
  intent : AnalysisIntent
  query_type : QueryType
  entities : List Entity
  parameters : Params
  is_valid : Bool
deriving DecidableEq

/-- `QueryParser._validate_query`. The trailing `return False` of the source
is unreachable, `AnalysisIntent` having exactly the three members matched
here. -/
def validate_query (intent : AnalysisIntent) (entities : List Entity) (parameters : Params) : Bool :=
  match intent with
  | .QUERY => true
  | .OPERATION => entities.length > 0
  | .MODIFICATION => entities.length > 0 && parameters.size > 0

/-- `QueryParser.parse_query`; `none` models the `ValueError` that
`_parse_constraints` can raise (caught only by the orchestrator). -/
def parse_query (text : String) : Option ParsedQuery := do
  let intent := classify_intent text
  let qtype := classify_query_type text
  let entities := extract_entities text
  let constraints := extract_numerical_constraints text
  let parameters ← parse_constraints constraints
  pure ⟨text, intent, qtype, entities, parameters, validate_query intent entities parameters⟩

/-! ### Data model of the orchestrators (`models.py`) -/

/-- `GeometricFeature` (pydantic). `properties` is an opaque string-keyed
mapping in the source; numeric property values are what the spec's filter
policy reads, so the mapping is carried as an association list into `Rat`.
The optional `bounding_box` field is never consumed by the modelled
operations and is omitted. -/
structure GeometricFeature where
  entity_type : GeometricEntity
  indices : List Nat
  properties : List (String × Rat)
deriving DecidableEq

/-- `TopologyCheckResult` (pydantic). -/
structure TopologyCheckResult where
  is_manifold : Bool
  has_self_intersections : Bool
  is_watertight : Bool
  issues : List String
deriving DecidableEq

/-- `AnalysisRequest` (pydantic). State tokens (`uuid4` strings in the
source) are opaque identifiers compared only for equality and are modelled
by `Nat`. The optional `intent` field is never read by either agent and is
omitted. -/
structure AnalysisRequest where
  model_id : String
  natural_language_query : String
  parameters : Params
  state_id : Nat
deriving DecidableEq

/-- The branch-specific part of the `result_data` dict that
`_execute_specific_analysis` merges into its base dict. -/
inductive DispatchData where
  | measurement (volume surface_area : Rat)
  | feature_detection (features : List GeometricFeature) (total_features filtered_features : Nat)
  | topology_check (topology : TopologyCheckResult)
  | selection (selected_indices : List Nat) (selected_count : Nat)
  | noop
deriving DecidableEq

/-- The `data` dict of an `AnalysisResult`, one shape per construction site
of the orchestrators. -/
inductive ResultData where
  | state_conflict (expected_state : Nat)
  | model_not_found (model_id : String)
  | invalid_query (parsed_query : ParsedQuery)
  | analysis_error (error : String)
  | payload (query_type : QueryType) (entities : List Entity) (request_parameters : Params) (body : DispatchData)
deriving DecidableEq

/-- `AnalysisResult` (pydantic): the uniform response envelope. -/
structure AnalysisResult where
  success : Bool
  result_type : String
  data : ResultData
  message : String
  features : List GeometricFeature := []
  execution_time : Rat
  state_id : Nat
deriving DecidableEq

/-! ### The registry state (`LangGraphNLMeshAgent` / `LLMNLMeshAgent`) -/

/-- One `model_cache` entry. The raw mesh is an opaque handle owned by the
mesh engine (`Nat` here); the `model_info` and `topology_result` metadata
stored alongside are never consumed by the modelled operations and are
omitted. -/
structure ModelRecord where
  mesh : Nat
  file_path : String
deriving DecidableEq

/-- The mutable state both agent classes carry: the model cache keyed by id
and the current state token. `uuid.uuid4()` is modelled by the monotone
counter `next_uuid`; a fresh draw (`next_uuid`) is distinct from every
previously issued identifier, which is the uuid4 contract the code relies
on. -/
structure Agent where
  model_cache : List (String × ModelRecord)
  current_state_id : Nat
  next_uuid : Nat
deriving DecidableEq

/-- Python `model_id in self.model_cache` / `self.model_cache[model_id]`. -/
def Agent.lookup (st : Agent) (mid : String) : Option ModelRecord :=
  (st.model_cache.find? (fun p => p.1 == mid)).map Prod.snd

/-- Freshness invariant of the uuid counter: the installed state token was
drawn before every future draw. It holds for a newly constructed agent
(token drawn at index 0, counter at 1) and is preserved by `process_upload`
and `cleanup_model`. -/
def AgentWF (st : Agent) : Prop := st.current_state_id < st.next_uuid

/-- The mesh-engine collaborator (`GeometryAnalyzer`), fed the opaque mesh
handle; every call may raise (`tools.py` raises `ImportError` without
`trimesh`, and the underlying library may throw). `elapsed` stands for the
wall-clock duration `datetime.now()` subtractions produce. -/
structure GeomOracle where
  measure_volume : Nat → Except String Rat
  measure_surface_area : Nat → Except String Rat
  detect_features : Nat → Except String (List GeometricFeature)
  check_topology : Nat → Except String TopologyCheckResult
  elapsed : Rat

/-! ### Dispatch (`LangGraphNLMeshAgent._execute_specific_analysis`) -/

/-- `_perform_selection`: the source returns the fixed simulated index list
`[0, 1, 2]` (its own comment: 模拟选择的索引), ignoring the mesh, the
entities and the parameters. -/
def perform_selection (mesh : Nat) (entities : List Entity) (parameters : Params) : List Nat × Nat :=
  let selected_indices : List Nat := [0, 1, 2]
  (selected_indices, selected_indices.length)

/-- `_filter_features_by_parameters`: the source returns all features
unchanged (its own comment: 暂时返回所有特征). -/
def filter_features_by_parameters (features : List GeometricFeature) (parameters : Params) : List GeometricFeature :=
  features

/-- The filter policy as the spec words it, for comparison with the code's
`filter_features_by_parameters`: keep a feature iff its declared `size`
property is at least `minValue` when that bound is present and at most
`maxValue` when that bound is present. -/
def specFilterFeatures (features : List GeometricFeature) (p : Params) : List GeometricFeature :=
  features.filter fun f =>
    let size := ((f.properties.find? (fun q => q.1 == "size")).map Prod.snd).getD 0
    (match p.min_value with | some m => decide (size ≥ m) | none => true) &&
    (match p.max_value with | some m => decide (size ≤ m) | none => true)

/-- `_perform_measurement`. -/
def perform_measurement (o : GeomOracle) (mesh : Nat) : Except String DispatchData := do
  let v ← o.measure_volume mesh
  let a ← o.measure_surface_area mesh
  pure (.measurement v a)

/-- `_perform_feature_detection`. -/
def perform_feature_detection (o : GeomOracle) (mesh : Nat) (parameters : Params) :
    Except String DispatchData := do
  let features ← o.detect_features mesh
  let filtered := filter_features_by_parameters features parameters
  pure (.feature_detection filtered features.length filtered.length)

/-- `_perform_topology_check`. -/
def perform_topology_check (o : GeomOracle) (mesh : Nat) : Except String DispatchData := do
  let t ← o.check_topology mesh
  pure (.topology_check t)

/-- `_execute_specific_analysis`: routes on the parsed query type; a query
type outside the four handled ones leaves the base dict untouched (a
no-op, not an error). `parameters` is `request.parameters`. -/
def execute_specific_analysis (o : GeomOracle) (pq : ParsedQuery) (mesh : Nat)
    (parameters : Params) : Except String DispatchData :=
  match pq.query_type with
  | .MEASUREMENT => perform_measurement o mesh
  | .FEATURE_DETECTION => perform_feature_detection o mesh parameters
  | .TOPOLOGY_CHECK => perform_topology_check o mesh
  | .SELECTION =>
    let s := perform_selection mesh pq.entities parameters
    pure (.selection s.1 s.2)
  | .MODIFICATION => pure .noop

/-! ### Response messages (`prompts.py` templates, numeric formatting
simplified; no claim reads message text) -/

/-- `ResponseTemplates.measurement_result`. -/
def measurement_result_msg (value : Rat) (unit : String) (description : String) : String :=
  "测量结果 " ++ description ++ ": " ++ toString value ++ " " ++ unit

/-- `ResponseTemplates.feature_detection_result`, applied (as the agent
does) to pydantic `GeometricFeature` objects: on a nonempty list the
template's `feature.get('type', ...)` raises `AttributeError` (pydantic
models have no `.get`); the empty list takes the early return. -/
def feature_detection_result_msg (features : List GeometricFeature) : Except String String :=
  if features.isEmpty then .ok "特征检测结果: 未检测到明显的几何特征。"
  else .error "AttributeError: GeometricFeature object has no attribute get"

/-- `ResponseTemplates.topology_check_result`. -/
def topology_check_result_msg (t : TopologyCheckResult) : String :=
  (if t.is_manifold && !t.has_self_intersections then "ok" else "warn") ++
    " 拓扑检查结果 流形:" ++ toString t.is_manifold ++
    " 自相交:" ++ toString t.has_self_intersections ++
    " 水密:" ++ toString t.is_watertight

/-- `ResponseTemplates.selection_result`. -/
def selection_result_msg (selected_count : Nat) (entity_type : String) : String :=
  "选择结果 已选择 " ++ toString selected_count ++ " 个" ++ entity_type

/-- `LangGraphNLMeshAgent._generate_response_message`. The inner defaults
(`result_data.get(..., ...)`) only fire for body shapes the dispatcher
never produces for that query type; they are reproduced all the same. -/
def generate_response_message (pq : ParsedQuery) (body : DispatchData) : Except String String :=
  match pq.query_type with
  | .MEASUREMENT =>
    match body with
    | .measurement v _ => .ok (measurement_result_msg v "mm³" "体积")
    | _ => .ok "分析完成"
  | .FEATURE_DETECTION =>
    feature_detection_result_msg (match body with | .feature_detection fs _ _ => fs | _ => [])
  | .TOPOLOGY_CHECK =>
    .ok (topology_check_result_msg
      (match body with | .topology_check t => t | _ => ⟨false, false, false, []⟩))
  | .SELECTION =>
    let n := match body with | .selection _ k => k | _ => 0
    let ety := match pq.entities with | [] => "元素" | e :: _ => e.type.str
    .ok (selection_result_msg n ety)
  | .MODIFICATION => .ok "分析完成"

/-! ### The deterministic orchestrator (`LangGraphNLMeshAgent.analyze_model`) -/

/-- `analyze_model`. The method body assigns nothing to `self`, so it is a
pure function of the agent state; the surrounding `try/except` appears as
the `Except`/`Option` results of the parser and the collaborator calls,
every failure of which becomes the `analysis_error` envelope. The three
early failure envelopes carry the literal `execution_time=0.0` of the
source; the measured paths carry `o.elapsed`. -/
def analyze_model (o : GeomOracle) (st : Agent) (req : AnalysisRequest) : AnalysisResult :=
  if req.state_id ≠ st.current_state_id then
    { success := false, result_type := "state_conflict",
      data := .state_conflict st.current_state_id,
      message := "状态ID不匹配，请刷新后重试", execution_time := 0,
      state_id := st.current_state_id }
  else
    match st.lookup req.model_id with
    | none =>
      { success := false, result_type := "model_not_found",
        data := .model_not_found req.model_id,
        message := "未找到模型: " ++ req.model_id, execution_time := 0,
        state_id := st.current_state_id }
    | some record =>
      match parse_query req.natural_language_query with
      | none =>
        { success := false, result_type := "analysis_error",
          data := .analysis_error "ValueError: could not convert string to float",
          message := "分析过程中发生错误: ValueError: could not convert string to float",
          execution_time := o.elapsed, state_id := st.current_state_id }
      | some pq =>
        if !pq.is_valid then
          { success := false, result_type := "invalid_query",
            data := .invalid_query pq,
            message := "无法理解查询意图，请重新表述", execution_time := 0,
            state_id := st.current_state_id }
        else
          match (do
            let body ← execute_specific_analysis o pq record.mesh req.parameters
            let msg ← generate_response_message pq body
            pure (body, msg) : Except String (DispatchData × String)) with
          | .error e =>
            { success := false, result_type := "analysis_error",
              data := .analysis_error e,
              message := "分析过程中发生错误: " ++ e,
              execution_time := o.elapsed, state_id := st.current_state_id }
          | .ok (body, msg) =>
            { success := true, result_type := pq.query_type.str,
              data := .payload pq.query_type pq.entities req.parameters body,
              message := msg,
              features := match body with | .feature_detection fs _ _ => fs | _ => [],
              execution_time := o.elapsed, state_id := st.current_state_id }

/-- `analyze_model` viewed as a state transformer on the agent. The source
method contains no assignment to `self.model_cache` or
`self.current_state_id`, so the post-state is the pre-state by
construction; this wrapper makes that frame property a statement about a
definition of this file. -/
def analyze_model_step (o : GeomOracle) (st : Agent) (req : AnalysisRequest) :
    AnalysisResult × Agent :=
  (analyze_model o st req, st)

/-! ### Registration and release (`process_upload`, `cleanup_model`) -/

/-- What `save_uploaded_file` + `process_model` deliver on success; the
stored metadata other than the mesh handle is not consumed by the modelled
operations. -/
structure ProcessedModel where
  mesh : Nat
deriving DecidableEq

/-- The dict `process_upload` returns (the fields the claims read). -/
structure UploadOutcome where
  success : Bool
  model_id : Option String
  state_id : Nat
deriving DecidableEq

/-- A uuid4 draw rendered as a model-id string (model ids are strings in the
source; `n` is the draw's index from the fresh counter). -/
def mkUuidStr (n : Nat) : String := "uuid-" ++ toString n

/-- `process_upload`: the storage/processing collaborator may raise, in
which case nothing was mutated; on success a fresh model id is drawn,
the record is installed, and a fresh state token replaces the current one
(invalidating it). -/
def process_upload (processed : Except String ProcessedModel) (st : Agent)
    (filename : String) : UploadOutcome × Agent :=
  match processed with
  | .error _ =>
    ({ success := false, model_id := none, state_id := st.current_state_id }, st)
  | .ok pm =>
    let model_id := mkUuidStr st.next_uuid
    let st' : Agent :=
      { model_cache := st.model_cache ++ [(model_id, { mesh := pm.mesh, file_path := "uploads/" ++ filename })],
        current_state_id := st.next_uuid + 1,
        next_uuid := st.next_uuid + 2 }
    ({ success := true, model_id := some model_id, state_id := st'.current_state_id }, st')

/-- `cleanup_model`: when the id is cached, the file is cleaned up
(`cleanup_file` swallows its own errors), the record is deleted, a fresh
state token is installed and `True` is returned; an absent id returns
`False` with no side effect. -/
def cleanup_model (st : Agent) (model_id : String) : Bool × Agent :=
  match st.lookup model_id with
  | some _ =>
    (true,
     { model_cache := st.model_cache.eraseP (fun p => p.1 == model_id),
       current_state_id := st.next_uuid,
       next_uuid := st.next_uuid + 1 })
  | none => (false, st)

/-! ## Theorems -/

/-- Helper: a candidate whose every occurrence in the list carries score zero
can never be picked by `pickFirstMax` when the starting best differs from it
(a replacement needs a strictly positive score). -/
theorem pickFirstMax_ne_bad {α : Type} (bad : α) :
    ∀ (l : List (α × Nat)) (b : α) (bs : Nat), b ≠ bad →
      (∀ p ∈ l, p.1 = bad → p.2 = 0) → pickFirstMax b bs l ≠ bad
  | [], _, _, hb, _ => hb
  | (x, s) :: rest, b, bs, hb, hl => by
    simp only [pickFirstMax]
    split
    · next hgt =>
      refine pickFirstMax_ne_bad bad rest x s ?_ ?_
      · intro hx
        have hs := hl (x, s) (by simp) hx
        omega
      · intro p hp hbad
        exact hl p (by simp [hp]) hbad
    · refine pickFirstMax_ne_bad bad rest b bs hb ?_
      intro p hp hbad
      exact hl p (by simp [hp]) hbad

/-- Helper: no `QueryType` string value is one of the failure result kinds. -/
theorem queryTypeStr_not_failure (qt : QueryType) :
    qt.str ≠ "state_conflict" ∧ qt.str ≠ "model_not_found" ∧
    qt.str ≠ "invalid_query" ∧ qt.str ≠ "analysis_error" := by
  cases qt <;> exact (by decide)

/-- C3: a parsed query's validity flag obeys exactly: `Query` intent is
always valid; `Operation` is valid iff at least one entity was extracted;
`Modification` is valid iff at least one entity and at least one parameter
were extracted. (`AnalysisIntent` has exactly these three members, so the
source's trailing `return False` — "any other intent" — is unreachable.) -/
theorem C3_validity_gating (intent : AnalysisIntent) (entities : List Entity) (parameters : Params) :
    validate_query intent entities parameters = true ↔
      (intent = .QUERY ∨
       (intent = .OPERATION ∧ entities ≠ []) ∨
       (intent = .MODIFICATION ∧ entities ≠ [] ∧ parameters.size ≠ 0)) := by
  cases intent <;>
    simp [validate_query, List.length_pos, Nat.pos_iff_ne_zero]

/-- C4: two independent defaults. For every text in which no intent
pattern matches (every intent's score is zero), `classify_intent` returns
`QUERY`, the first enumerated intent; and, separately, for every text in
which no query-type pattern matches, `classify_query_type` returns
`MEASUREMENT` through its explicit zero-score fallback. -/
theorem C4_zero_score_defaults (text : String) :
    ((∀ i, intentScore text i = 0) → classify_intent text = .QUERY) ∧
    ((∀ q, queryTypeScore text q = 0) → classify_query_type text = .MEASUREMENT) := by
  constructor
  · intro h1
    simp [classify_intent, h1, pickFirstMax]
  · intro h2
    simp [classify_query_type, h2, pickFirstMax]

/-- Witness for C4 at concrete texts exercising each default on its own:
`"直径"` matches no intent pattern (but does match a Measurement query-type
pattern), and `"旋转"` matches no query-type pattern (but does match an
Operation intent pattern). -/
theorem C4_zero_score_defaults_witness :
    classify_intent "直径" = .QUERY ∧ classify_query_type "旋转" = .MEASUREMENT :=
  ⟨(C4_zero_score_defaults "直径").1 (fun i => by cases i <;> rfl),
   (C4_zero_score_defaults "旋转").2 (fun q => by cases q <;> rfl)⟩

/-- C10: the query-type pattern table has no entry for `MODIFICATION`, so
that type's score is always zero and `classify_query_type` never returns
it — the result is always one of the four scored types. -/
theorem C10_no_modification_query_type (text : String) :
    queryTypeScore text .MODIFICATION = 0 ∧
    classify_query_type text ∈
      [QueryType.MEASUREMENT, .FEATURE_DETECTION, .TOPOLOGY_CHECK, .SELECTION] := by
  refine ⟨rfl, ?_⟩
  have hbest : pickFirstMax QueryType.MEASUREMENT (queryTypeScore text .MEASUREMENT)
      [(.FEATURE_DETECTION, queryTypeScore text .FEATURE_DETECTION),
       (.TOPOLOGY_CHECK, queryTypeScore text .TOPOLOGY_CHECK),
       (.SELECTION, queryTypeScore text .SELECTION),
       (.MODIFICATION, queryTypeScore text .MODIFICATION)] ≠ .MODIFICATION := by
    refine pickFirstMax_ne_bad _ _ _ _ (by simp) ?_
    intro p hp hbad
    simp only [List.mem_cons, List.not_mem_nil, or_false] at hp
    rcases hp with h | h | h | h <;> subst h <;> first | rfl | (exact absurd hbad (by simp))
  have hne : classify_query_type text ≠ .MODIFICATION := by
    unfold classify_query_type
    dsimp only
    split
    · exact hbest
    · simp
  cases h : classify_query_type text <;> simp_all

/-- C9: `analyze_model` is read-only with respect to the registry — the
post-state equals the pre-state (the method assigns nothing to the cache or
the token) — and every returned envelope carries the registry's current
state token. -/
theorem C9_analysis_read_only (o : GeomOracle) (st : Agent) (req : AnalysisRequest) :
    (analyze_model_step o st req).2 = st ∧
    (analyze_model_step o st req).1.state_id = st.current_state_id := by
  refine ⟨rfl, ?_⟩
  show (analyze_model o st req).state_id = st.current_state_id
  unfold analyze_model
  split
  · rfl
  · split
    · rfl
    · split
      · rfl
      · split
        · rfl
        · split
          · rfl
          · rfl

/-- C5: `analyze_model` is a total function into the uniform envelope (no
exception escapes: the parser's and the collaborators' failures are the
`Except`/`Option` branches, all of which are converted below), and an
envelope is a failure (`success = false`) exactly when its result kind is
one of the four failure kinds. -/
theorem C5_uniform_result_envelope (o : GeomOracle) (st : Agent) (req : AnalysisRequest) :
    (analyze_model o st req).success = false ↔
      (analyze_model o st req).result_type ∈
        ["state_conflict", "model_not_found", "invalid_query", "analysis_error"] := by
  unfold analyze_model
  split
  · simp
  · split
    · simp
    · split
      · simp
      · split
        · simp
        · split
          · simp
          · simp [queryTypeStr_not_failure]

/-- C1: under the uuid-freshness invariant, a successful `process_upload`
installs a state token different from the pre-call one, a successful
`cleanup_model` installs another different token, and an analysis request
whose claimed token differs from the current one gets a failed envelope of
kind `state_conflict` while the record map and token stay untouched. -/
theorem C1_state_token_guard (st : Agent) (h : AgentWF st) :
    (∀ pr fn, (process_upload pr st fn).1.success = true →
       (process_upload pr st fn).2.current_state_id ≠ st.current_state_id) ∧
    (∀ mid, (cleanup_model st mid).1 = true →
       (cleanup_model st mid).2.current_state_id ≠ st.current_state_id) ∧
    (∀ o req, req.state_id ≠ st.current_state_id →
       (analyze_model o st req).success = false ∧
       (analyze_model o st req).result_type = "state_conflict" ∧
       (analyze_model o st req).data = .state_conflict st.current_state_id ∧
       (analyze_model_step o st req).2 = st) := by
  have hwf : st.current_state_id < st.next_uuid := h
  refine ⟨?_, ?_, ?_⟩
  · intro pr fn hsucc
    cases pr with
    | error e => simp [process_upload] at hsucc
    | ok pm =>
      show st.next_uuid + 1 ≠ st.current_state_id
      omega
  · intro mid hok
    unfold cleanup_model at hok ⊢
    split
    · show st.next_uuid ≠ st.current_state_id
      omega
    · rename_i hmiss
      rw [hmiss] at hok
      simp at hok
  · intro o req hne
    unfold analyze_model
    rw [if_pos hne]
    exact ⟨rfl, rfl, rfl, rfl⟩

/-- Witness for C1 at concrete agents satisfying the freshness invariant. -/
theorem C1_state_token_guard_witness :
    (process_upload (.ok ⟨0⟩) ⟨[], 0, 1⟩ "part.stl").2.current_state_id ≠ 0 ∧
    (cleanup_model ⟨[("uuid-0", ⟨0, "uploads/part.stl"⟩)], 0, 1⟩ "uuid-0").2.current_state_id ≠ 0 ∧
    (analyze_model ⟨fun _ => .ok 0, fun _ => .ok 0, fun _ => .ok [], fun _ => .ok ⟨true, false, true, []⟩, 0⟩
        ⟨[], 0, 1⟩ ⟨"m", "q", ⟨none, none, none⟩, 5⟩).result_type = "state_conflict" := by
  refine ⟨?_, ?_, ?_⟩
  · exact (C1_state_token_guard ⟨[], 0, 1⟩ Nat.one_pos).1 (.ok ⟨0⟩) "part.stl" rfl
  · exact (C1_state_token_guard ⟨[("uuid-0", ⟨0, "uploads/part.stl"⟩)], 0, 1⟩ Nat.one_pos).2.1
      "uuid-0" rfl
  · exact (((C1_state_token_guard ⟨[], 0, 1⟩ Nat.one_pos).2.2
      ⟨fun _ => .ok 0, fun _ => .ok 0, fun _ => .ok [], fun _ => .ok ⟨true, false, true, []⟩, 0⟩
      ⟨"m", "q", ⟨none, none, none⟩, 5⟩ (by decide)).2).1

/-- Helper: any comparison-family constraint lands in the `min_value`
branch (the branch test `"大于" in pattern` is true of the comparison
pattern's source string whatever word actually matched). -/
theorem constraintStep_comparison (p : Params) (w n : String) (u : Option String) :
    constraintStep p ⟨patComparison, [some w, some n, u]⟩ =
      (pyFloat? n).map fun v => { p with min_value := some (normalize_units v u) } := by
  have hc1 : strContains patComparison "大于" = true := by decide
  simp only [constraintStep, hc1, Bool.true_or, if_true]
  cases hpf : pyFloat? n <;> simp [hpf, Option.bind]

/-- Helper: a range constraint sets both bounds. -/
theorem constraintStep_range (p : Params) (a b : String) (u : Option String)
    (va vb : Rat) (ha : pyFloat? a = some va) (hb : pyFloat? b = some vb) :
    constraintStep p ⟨patRange, [some a, some b, u]⟩ =
      some { p with min_value := some (normalize_units va u),
                    max_value := some (normalize_units vb u) } := by
  have hr1 : strContains patRange "大于" = false := by decide
  have hr2 : strContains patRange ">" = false := by decide
  have hr3 : strContains patRange "小于" = false := by decide
  have hr4 : strContains patRange "<" = false := by decide
  have hr5 : strContains patRange "到" = true := by decide
  simp only [constraintStep, hr1, hr2, hr3, hr4, hr5, Bool.false_or, Bool.or_self,
    if_false, if_true]
  simp [ha, hb, Option.bind]

/-- Helper: a bare number+unit constraint sets `target_value`. -/
theorem constraintStep_bare (p : Params) (n u : String) :
    constraintStep p ⟨patBare, [some n, some u]⟩ =
      (pyFloat? n).map fun v => { p with target_value := some (normalize_units v (some u)) } := by
  have hb1 : strContains patBare "大于" = false := by decide
  have hb2 : strContains patBare ">" = false := by decide
  have hb3 : strContains patBare "小于" = false := by decide
  have hb4 : strContains patBare "<" = false := by decide
  have hb5 : strContains patBare "到" = false := by decide
  have hb6 : strContains patBare "-" = false := by decide
  simp only [constraintStep, hb1, hb2, hb3, hb4, hb5, hb6, Bool.false_or, Bool.or_self,
    if_false]
  cases hpf : pyFloat? n <;> simp [hpf, Option.bind]

/-- Helper: `float("10")` is 10 (the fractional part is empty). -/
theorem pyFloat_ten : pyFloat? "10" = some 10 := by
  show some (((10 : Nat) : Rat) + ((0 : Nat) : Rat) / (10 : Rat) ^ (0 : Nat)) = some 10
  norm_num

/-- Helper: `float("5")` is 5. -/
theorem pyFloat_five : pyFloat? "5" = some 5 := by
  show some (((5 : Nat) : Rat) + ((0 : Nat) : Rat) / (10 : Rat) ^ (0 : Nat)) = some 5
  norm_num

/-- Helper: the millimeter multiplier is 1. -/
theorem normalize_mm (v : Rat) : normalize_units v (some "mm") = v := by
  show v * 1 = v
  exact mul_one v

/-- C2 (amended): every match of the comparison pattern family — whatever
the matched comparison word, "less than" and "equal to" included — sets
`min_value`, because `_parse_constraints` tests the pattern's *source
string* (which contains 大于) instead of the matched word; a range match
sets both `min_value` and `max_value`; a bare number+unit match sets
`target_value`; each value is normalized by `normalize_units` before being
stored; and the concrete round trip `parse("选择直径大于10mm的孔")` yields
`min_value = 10.0` with `Hole` among the entities. -/
theorem C2_constraint_resolution :
    (∀ p w n u, constraintStep p ⟨patComparison, [some w, some n, u]⟩ =
       (pyFloat? n).map fun v => { p with min_value := some (normalize_units v u) }) ∧
    (∀ p a b u va vb, pyFloat? a = some va → pyFloat? b = some vb →
       constraintStep p ⟨patRange, [some a, some b, u]⟩ =
         some { p with min_value := some (normalize_units va u),
                       max_value := some (normalize_units vb u) }) ∧
    (∀ p n u, constraintStep p ⟨patBare, [some n, some u]⟩ =
       (pyFloat? n).map fun v => { p with target_value := some (normalize_units v (some u)) }) ∧
    ((parse_query "选择直径大于10mm的孔").map (fun q => q.parameters.min_value) = some (some 10) ∧
     (parse_query "选择直径大于10mm的孔").map (fun q => q.entities.any (fun e => e.type == .HOLE)) =
       some true) := by
  have hx : extract_numerical_constraints "选择直径大于10mm的孔" =
      [⟨patComparison, [some "大于", some "10", some "mm"]⟩,
       ⟨patBare, [some "10", some "mm"]⟩] := by decide
  have hp : parse_constraints (extract_numerical_constraints "选择直径大于10mm的孔") =
      some ⟨some 10, none, some 10⟩ := by
    rw [hx]
    simp only [parse_constraints, List.foldlM_cons, List.foldlM_nil, Option.bind_eq_bind,
      Option.some_bind, constraintStep_comparison, constraintStep_bare, pyFloat_ten,
      Option.map_some', normalize_mm]
    rfl
  have hq : parse_query "选择直径大于10mm的孔" =
      some ⟨"选择直径大于10mm的孔", .OPERATION, .MEASUREMENT,
            [⟨.HOLE, "孔", 11⟩], ⟨some 10, none, some 10⟩, true⟩ := by
    unfold parse_query
    dsimp only
    rw [hp]
    decide
  refine ⟨constraintStep_comparison, ?_, constraintStep_bare, ?_, ?_⟩
  · intro p a b u va vb ha hb
    exact constraintStep_range p a b u va vb ha hb
  · rw [hq]
    rfl
  · rw [hq]
    decide

/-- Counterexample to C2 as stated: in `"选择直径小于5mm的孔"` the
comparison family matches the "less than" word 小于, yet the resulting
parameters carry no `max_value` — the match landed in `min_value`. -/
theorem C2_less_than_counterexample :
    extract_numerical_constraints "选择直径小于5mm的孔" =
      [⟨patComparison, [some "小于", some "5", some "mm"]⟩,
       ⟨patBare, [some "5", some "mm"]⟩] ∧
    (parse_query "选择直径小于5mm的孔").map (fun q => q.parameters.max_value) = some none ∧
    (parse_query "选择直径小于5mm的孔").map (fun q => q.parameters.min_value) = some (some 5) := by
  have hx : extract_numerical_constraints "选择直径小于5mm的孔" =
      [⟨patComparison, [some "小于", some "5", some "mm"]⟩,
       ⟨patBare, [some "5", some "mm"]⟩] := by decide
  have hp : parse_constraints (extract_numerical_constraints "选择直径小于5mm的孔") =
      some ⟨some 5, none, some 5⟩ := by
    rw [hx]
    simp only [parse_constraints, List.foldlM_cons, List.foldlM_nil, Option.bind_eq_bind,
      Option.some_bind, constraintStep_comparison, constraintStep_bare, pyFloat_five,
      Option.map_some', normalize_mm]
    rfl
  have hq : parse_query "选择直径小于5mm的孔" =
      some ⟨"选择直径小于5mm的孔", .OPERATION, .MEASUREMENT,
            [⟨.HOLE, "孔", 10⟩], ⟨some 5, none, some 5⟩, true⟩ := by
    unfold parse_query
    dsimp only
    rw [hp]
    decide
  refine ⟨hx, ?_, ?_⟩ <;> (rw [hq]; rfl)

/-- C6 (amended): the orchestrator performs no emptiness validation. With a
matching token, a request whose model id is empty (and hence unregistered)
passes input validation, reaches the registry, and fails as
`model_not_found` — not as a validation error before the lookup; and a
request whose query text is empty proceeds through model lookup and
parsing (the empty text parses as a valid `Query`/`Measurement`) into
dispatch, ending as a successful measurement or as `analysis_error`,
depending only on the mesh-engine collaborator. -/
theorem C6_no_emptiness_validation (go : GeomOracle) (st : Agent) (req : AnalysisRequest)
    (htok : req.state_id = st.current_state_id) :
    (req.model_id = "" → st.lookup "" = none →
       (analyze_model go st req).success = false ∧
       (analyze_model go st req).result_type = "model_not_found") ∧
    (∀ r, req.natural_language_query = "" → st.lookup req.model_id = some r →
       (analyze_model go st req).result_type = "measurement" ∨
       (analyze_model go st req).result_type = "analysis_error") := by
  have hparse : parse_query "" =
      some ⟨"", .QUERY, .MEASUREMENT, [], ⟨none, none, none⟩, true⟩ := by decide
  refine ⟨?_, ?_⟩
  · intro hid hmiss
    unfold analyze_model
    rw [if_neg (by simp [htok])]
    rw [hid, hmiss]
    exact ⟨rfl, rfl⟩
  · intro r hq hsome
    unfold analyze_model
    rw [if_neg (by simp [htok]), hsome, hq, hparse]
    dsimp only
    split
    · simp_all
    · split
      · right; rfl
      · left; rfl

/-- Witness for C6 (amended): an empty model id against an empty registry
yields `model_not_found`, and an empty query text against a registered
model dispatches as a measurement. -/
theorem C6_no_emptiness_validation_witness :
    (analyze_model
        ⟨fun _ => .ok 12, fun _ => .ok 34, fun _ => .ok [], fun _ => .ok ⟨true, false, true, []⟩, 0⟩
        ⟨[], 2, 3⟩ ⟨"", "测量体积", ⟨none, none, none⟩, 2⟩).result_type = "model_not_found" ∧
    ((analyze_model
        ⟨fun _ => .ok 12, fun _ => .ok 34, fun _ => .ok [], fun _ => .ok ⟨true, false, true, []⟩, 0⟩
        ⟨[("uuid-0", ⟨0, "uploads/a.stl"⟩)], 2, 3⟩
        ⟨"uuid-0", "", ⟨none, none, none⟩, 2⟩).result_type = "measurement" ∨
     (analyze_model
        ⟨fun _ => .ok 12, fun _ => .ok 34, fun _ => .ok [], fun _ => .ok ⟨true, false, true, []⟩, 0⟩
        ⟨[("uuid-0", ⟨0, "uploads/a.stl"⟩)], 2, 3⟩
        ⟨"uuid-0", "", ⟨none, none, none⟩, 2⟩).result_type = "analysis_error") := by
  refine ⟨?_, ?_⟩
  · exact ((C6_no_emptiness_validation
      ⟨fun _ => .ok 12, fun _ => .ok 34, fun _ => .ok [], fun _ => .ok ⟨true, false, true, []⟩, 0⟩
      ⟨[], 2, 3⟩ ⟨"", "测量体积", ⟨none, none, none⟩, 2⟩ rfl).1 rfl rfl).2
  · exact (C6_no_emptiness_validation
      ⟨fun _ => .ok 12, fun _ => .ok 34, fun _ => .ok [], fun _ => .ok ⟨true, false, true, []⟩, 0⟩
      ⟨[("uuid-0", ⟨0, "uploads/a.stl"⟩)], 2, 3⟩
      ⟨"uuid-0", "", ⟨none, none, none⟩, 2⟩ rfl).2 ⟨0, "uploads/a.stl"⟩ rfl rfl

/-- Counterexample to C6 as stated: in the deterministic orchestrator an
analysis request with an *empty query text* (matching token, registered
model) is not rejected by any validation — it proceeds through parsing and
dispatch and succeeds as a measurement. -/
theorem C6_counterexample :
    (analyze_model
        ⟨fun _ => .ok 12, fun _ => .ok 34, fun _ => .ok [], fun _ => .ok ⟨true, false, true, []⟩, 1⟩
        ⟨[("uuid-0", ⟨0, "uploads/a.stl"⟩)], 1, 2⟩
        ⟨"uuid-0", "", ⟨none, none, none⟩, 1⟩).success = true ∧
    (analyze_model
        ⟨fun _ => .ok 12, fun _ => .ok 34, fun _ => .ok [], fun _ => .ok ⟨true, false, true, []⟩, 1⟩
        ⟨[("uuid-0", ⟨0, "uploads/a.stl"⟩)], 1, 2⟩
        ⟨"uuid-0", "", ⟨none, none, none⟩, 1⟩).result_type = "measurement" := by
  decide

/-- C7 (amended): a `Selection` dispatch returns the fixed simulated index
list `[0, 1, 2]` with `selected_count = 3`, regardless of the model's
elements, the parsed entities and the parameters. -/
theorem C7_selection_is_mock (o : GeomOracle) (pq : ParsedQuery) (mesh : Nat) (ps : Params)
    (h : pq.query_type = .SELECTION) :
    perform_selection mesh pq.entities ps = ([0, 1, 2], 3) ∧
    execute_specific_analysis o pq mesh ps = .ok (.selection [0, 1, 2] 3) := by
  refine ⟨rfl, ?_⟩
  unfold execute_specific_analysis
  rw [h]
  rfl

/-- Witness for C7 (amended) at a concrete selection-typed parsed query. -/
theorem C7_selection_is_mock_witness :
    execute_specific_analysis
        ⟨fun _ => .ok 0, fun _ => .ok 0, fun _ => .ok [], fun _ => .ok ⟨true, false, true, []⟩, 0⟩
        ⟨"", .QUERY, .SELECTION, [], ⟨none, none, none⟩, true⟩ 0 ⟨none, none, none⟩ =
      .ok (.selection [0, 1, 2] 3) :=
  (C7_selection_is_mock
    ⟨fun _ => .ok 0, fun _ => .ok 0, fun _ => .ok [], fun _ => .ok ⟨true, false, true, []⟩, 0⟩
    ⟨"", .QUERY, .SELECTION, [], ⟨none, none, none⟩, true⟩ 0 ⟨none, none, none⟩ rfl).2

/-- Counterexample to C7 as stated: `"查询高亮全部"` parses to a valid
selection-typed query with an empty entity list, yet the dispatched
selection is `[0, 1, 2]` with `selected_count = 3`, not the empty
selection the claim requires. -/
theorem C7_counterexample :
    (parse_query "查询高亮全部").map (fun q => q.entities) = some [] ∧
    (analyze_model
        ⟨fun _ => .ok 0, fun _ => .ok 0, fun _ => .ok [], fun _ => .ok ⟨true, false, true, []⟩, 1⟩
        ⟨[("uuid-0", ⟨0, "uploads/a.stl"⟩)], 1, 2⟩
        ⟨"uuid-0", "查询高亮全部", ⟨none, none, none⟩, 1⟩).data =
      .payload .SELECTION [] ⟨none, none, none⟩ (.selection [0, 1, 2] 3) := by
  decide

/-- C8 (amended): the feature filter is the identity — every detected
feature is kept whatever `min_value`/`max_value`/`target_value` say (the
source returns the input list unchanged). -/
theorem C8_feature_filter_is_identity (features : List GeometricFeature) (p : Params) :
    filter_features_by_parameters features p = features ∧
    (∀ o : GeomOracle, ∀ mesh, ∀ fs, o.detect_features mesh = .ok fs →
       perform_feature_detection o mesh p = .ok (.feature_detection fs fs.length fs.length)) := by
  refine ⟨rfl, ?_⟩
  intro o mesh fs hdet
  simp [perform_feature_detection, hdet, filter_features_by_parameters, Except.bind]

/-- Counterexample to C8 as stated: a feature of size 1 against
`min_value = 10` must be dropped under the claimed filter policy
(`specFilterFeatures`, the spec's wording), but the code keeps it. -/
theorem C8_counterexample :
    filter_features_by_parameters [⟨.HOLE, [0], [("size", 1)]⟩] ⟨some 10, none, none⟩ =
      [⟨.HOLE, [0], [("size", 1)]⟩] ∧
    specFilterFeatures [⟨.HOLE, [0], [("size", 1)]⟩] ⟨some 10, none, none⟩ = [] ∧
    filter_features_by_parameters [⟨.HOLE, [0], [("size", 1)]⟩] ⟨some 10, none, none⟩ ≠
      specFilterFeatures [⟨.HOLE, [0], [("size", 1)]⟩] ⟨some 10, none, none⟩ := by
  decide

end NLMesh
